import Mathlib

/-!
Verification development for the query-to-structured-answer pipeline of
`search_agent.py`: prompt construction (`create_formatted_prompt`), the web
search provider (`google_search_tool`), the markdown formatter
(`format_to_markdown`), the output normalizer and the orchestration around the
agent invocation (the `chat_input` handler).

Python strings are embedded as `List Char`; the Python string operations used
by the program (`in`, `split`, `replace`, `strip`, `lower`, `startswith`,
`endswith`, `join`) are given executable definitions with Python semantics at
the call sites that occur in the program (all separators passed to `split`
and `replace` are nonempty). A Python function that can raise is embedded
with an `Option`/`Except` result; `none` / `.error` marks the raising path.
-/

abbrev Str := List Char

/-- Python `sub in s` (substring test). -/
def containsSub (sub : Str) : Str → Bool
  | [] => sub.isEmpty
  | c :: rest => sub.isPrefixOf (c :: rest) || containsSub sub rest

/-- Fueled worker for Python `s.split(sep)` with nonempty `sep`: scan left to
right, cutting at each leftmost non-overlapping occurrence of `sep`. The fuel
is only there to make the recursion structural; `pySplit` passes `s.length`,
which is always enough. -/
def pySplitAux (sep : Str) : Nat → Str → List Str
  | _, [] => [[]]
  | 0, s => [s]
  | fuel+1, c :: rest =>
    if sep.isPrefixOf (c :: rest) then
      [] :: pySplitAux sep fuel (rest.drop (sep.length - 1))
    else
      match pySplitAux sep fuel rest with
      | [] => [[c]]
      | f :: fs => (c :: f) :: fs

/-- Python `s.split(sep)` for nonempty `sep`. -/
def pySplit (sep s : Str) : List Str := pySplitAux sep s.length s

/-- Python `sep.join(parts)`. -/
def joinSep (sep : Str) : List Str → Str
  | [] => []
  | [x] => x
  | x :: y :: xs => x ++ sep ++ joinSep sep (y :: xs)

/-- Fueled worker for Python `s.replace(old, new)` with nonempty `old`:
replace every leftmost non-overlapping occurrence; inserted text is not
rescanned. -/
def pyReplaceAux (old new : Str) : Nat → Str → Str
  | _, [] => []
  | 0, s => s
  | fuel+1, c :: rest =>
    if old.isPrefixOf (c :: rest) then
      new ++ pyReplaceAux old new fuel (rest.drop (old.length - 1))
    else
      c :: pyReplaceAux old new fuel rest

/-- Python `s.replace(old, new)` for nonempty `old`. -/
def pyReplace (s old new : Str) : Str := pyReplaceAux old new s.length s

/-- The ASCII whitespace characters stripped by Python `str.strip()` (the
program only ever strips ASCII text). -/
def isPySpace (c : Char) : Bool :=
  c = ' ' || c = '\t' || c = '\n' || c = '\r' || c = '\x0b' || c = '\x0c'

/-- Python `s.strip()`. -/
def pyStrip (s : Str) : Str :=
  ((s.dropWhile isPySpace).reverse.dropWhile isPySpace).reverse

/-- Python `s.lower()` (ASCII case folding; the program only lowercases
ASCII error messages and queries). -/
def pyLower (s : Str) : Str := s.map Char.toLower

/-- The output-schema delimiter `<||>`. -/
def DELIM : Str := "<||>".data

/-- The sentinel used to pad missing fields. -/
def NA : Str := "N/A".data

/-- The inline output normalizer of the `chat_input` handler:
`if "<||>" not in response: response = "<||>".join([response] + ["N/A"] * (len(format_input.split("<||>")) - 1))`. -/
def normalizeResponse (response format_input : Str) : Str :=
  if containsSub DELIM response then response
  else
    joinSep DELIM
      (response :: List.replicate ((pySplit DELIM format_input).length - 1) NA)

/-- The case-insensitive error signal checked by the orchestration. -/
def ITER_MSG : Str := "maximum iterations".data

/-- The fixed user-facing message substituted when the iteration cap is hit. -/
def FALLBACK : Str :=
  "Search stopped due to too many iterations. Please try a more specific query.".data

/-- The inner `try/except` around `search_agent.run`: an `.error` result whose
message contains `maximum iterations` (case-insensitively) is replaced by the
fixed fallback message; any other error is re-raised. -/
def handleAgentError (result : Except Str Str) : Except Str Str :=
  match result with
  | .ok r => .ok r
  | .error e =>
    if containsSub ITER_MSG (pyLower e) then .ok FALLBACK else .error e

/-- One turn of the handler after the agent ran: apply the inner error
handler, then the output normalizer; the resulting `.ok` text is what is
appended to the conversation and displayed. -/
def turnResponse (result : Except Str Str) (format_input : Str) : Except Str Str :=
  match handleAgentError result with
  | .ok r => .ok (normalizeResponse r format_input)
  | .error e => .error e

/-- The `Source:` line marker of `format_to_markdown`. -/
def SRC : Str := "Source:".data

/-- `current_source.split('/')[2] if '/' in current_source else current_source`;
`none` is the `IndexError` raised when the split has fewer than three parts. -/
def domainOf (current_source : Str) : Option Str :=
  if containsSub ['/'] current_source then (pySplit ['/'] current_source)[2]?
  else some current_source

/-- The loop state of `format_to_markdown`: the `current_source` variable
(`none` before any `Source:` line) and the accumulated `markdown_lines`. -/
structure FmtState where
  currentSource : Option Str
  markdownLines : List Str

/-- Python truthiness of `current_source` in `elif current_source and line:`
(`None` and the empty string are falsy). -/
def truthy : Option Str → Bool
  | none => false
  | some s => !s.isEmpty

/-- One iteration of the `for line in search_results.split('\n')` loop of
`format_to_markdown`; `none` is the `IndexError` escaping from the domain
extraction. -/
def fmtLine (st : FmtState) (rawLine : Str) : Option FmtState :=
  let line := pyStrip rawLine
  if SRC.isPrefixOf line then
    let current_source := pyStrip (pyReplace line SRC [])
    match domainOf current_source with
    | none => none
    | some domain =>
      some ⟨some current_source,
        st.markdownLines ++
          ["\n### [".data ++ domain ++ "](".data ++ current_source ++ ")".data]⟩
  else if truthy st.currentSource && !line.isEmpty then
    if containsSub "RYOBI".data line || containsSub "PCL".data line ||
        containsSub "$".data line then
      some ⟨st.currentSource, st.markdownLines ++ ["- ".data ++ line]⟩
    else some st
  else some st

/-- `format_to_markdown`: line-by-line scan, then `"\n".join(markdown_lines)`;
`none` is the `IndexError` raised on a `Source:` line whose URL contains `/`
but splits into fewer than three `/`-separated parts. -/
def format_to_markdown (search_results : Str) : Option Str :=
  ((pySplit ['\n'] search_results).foldlM fmtLine ⟨none, []⟩).map
    (fun st => joinSep ['\n'] st.markdownLines)

/-- A line is safe for `format_to_markdown`: if (after stripping) it is a
`Source:` line, its extracted URL either contains no `/` or splits into at
least three `/`-parts, so the domain extraction does not raise. -/
def goodLine (rawLine : Str) : Bool :=
  !(SRC.isPrefixOf (pyStrip rawLine)) ||
    (domainOf (pyStrip (pyReplace (pyStrip rawLine) SRC []))).isSome

/-- `MAX_SEARCH_RESULTS = 3`. -/
def MAX_SEARCH_RESULTS : Nat := 3

/-- One underlying call to the `googlesearch` library: the query string and
the result cap (`num`/`stop`). -/
structure SearchCall where
  query : Str
  num : Nat
deriving DecidableEq

/-- The query-planning branch of `google_search_tool`: if the lowercased
query contains `company` or `llc`, strip the literal substring `llc`
(case-sensitively) and plan two searches capped at 2 results each; otherwise
plan one search for the literal query capped at `num` results. -/
def plannedSearches (query : Str) (num : Nat) : List SearchCall :=
  if containsSub "company".data (pyLower query) ||
      containsSub "llc".data (pyLower query) then
    let company_name := pyStrip (pyReplace query "llc".data [])
    [⟨company_name ++ " company website OR ".data ++ company_name ++ ".com".data, 2⟩,
     ⟨company_name ++ " company (industry OR revenue OR headquarters)".data, 2⟩]
  else [⟨query, num⟩]

/-- Run the planned searches against an injected backend (the external
`googlesearch.search`), concatenating result lists in plan order; the first
backend exception aborts the whole batch, as in the Python code where
`results.extend(list(search(...)))` runs after the first `list(search(...))`
completed. -/
def runSearches (f : Str → Nat → Except Str (List Str)) (query : Str)
    (num : Nat) : Except Str (List Str) :=
  (plannedSearches query num).foldlM
    (fun acc c => (f c.query c.num).map (fun r => acc ++ r)) []

/-- The per-URL body of the result loop: `url.split('/')[2]` (a `none` is the
per-item `IndexError`, swallowed by `continue`), the `.com`/`.org`
annotation, and the indented f-string block appended to `formatted_results`. -/
def resultBlock (url : Str) : Option Str :=
  match (pySplit ['/'] url)[2]? with
  | none => none
  | some domain =>
    let info : List Str :=
      if ".com".data.isSuffixOf domain || ".org".data.isSuffixOf domain then
        ["Company Website: ".data ++ domain]
      else []
    some ("\n                Source: ".data ++ url ++
      "\n                Website: ".data ++ domain ++
      "\n                Info: ".data ++ joinSep [' '] info ++
      "\n                ".data)

/-- The error-string head of the provider boundary. -/
def ERR_HEAD : Str := "Error in Google Search: ".data

/-- `str(IndexError("list index out of range"))`, the message of the only
exception the body after a successful backend call can raise (inside
`format_to_markdown`). -/
def INDEX_ERR : Str := "list index out of range".data

/-- `google_search_tool` over an injected backend: plan and run the searches,
build the per-result blocks (skipping items whose URL fails the domain
parse), format the joined blocks as markdown, and convert any exception to
the plain-text string `Error in Google Search: <message>` — the provider
returns a string on every input. -/
def google_search_tool (f : Str → Nat → Except Str (List Str)) (query : Str)
    (num : Nat) : Str :=
  match runSearches f query num with
  | .error e => ERR_HEAD ++ e
  | .ok urls =>
    let formatted_results := urls.filterMap resultBlock
    match format_to_markdown (joinSep ['\n'] formatted_results) with
    | some md => md
    | none => ERR_HEAD ++ INDEX_ERR

/-- Body of the `Product Search` template (exact text of the Python
triple-quoted literal, including its indentation and trailing spaces). -/
def productSearchBody : Str :=
  ("You are a product analyst. Analyze this product: {query}\n    \n    TASK:\n    1. Extract product details from markdown content\n    2. Identify: full product name, category, price, and URL\n    3. Format response precisely\n    \n    Available information from search:\n    {search_results}\n    \n    INSTRUCTIONS:\n    - IMPORTANT: Only use prices that appear directly in the search results\n    - If no price is found, use \"Price not found\" instead of guessing\n    - Use official retailer URL when available\n    - Format response exactly as shown below\n    - No hallucination or guessing of information\n    - If information is not found, use \"Not found\" \n    \n    OUTPUT FORMAT:\n    [Product Name]<||>[Category]<||>[Price]<||>[URL]").data

/-- Body of the `Location Info` template. -/
def locationInfoBody : Str :=
  ("You are a geographic analyst. Analyze this query: {query}\n    \n    Your task:\n    1. Determine the type of location (country, state, city, etc.)\n    2. Search for accurate population and area data\n    3. Format response precisely\n    \n    Available information from search:\n    {search_results}\n    \n    Rules:\n    - For US locations, specify if it\x27s a state or city\n    - Population should be the most recent available\n    - Area should include the unit (km² or sq mi)\n    - Be accurate with administrative divisions").data

/-- Body of the `Company Details` template. -/
def companyDetailsBody : Str :=
  ("You are a business analyst. Analyze this query: {query}\n    \n    Your task:\n    1. Research company information\n    2. Find company website and details\n    3. Format response precisely\n    \n    Available information from search:\n    {search_results}\n    \n    Rules:\n    - Look for company website first\n    - Extract industry from company description or website\n    - Include headquarters if found\n    - If information is not available, use \"Not found\"\n    - NO HALLUCINATION - only use found information\n    \n    OUTPUT FORMAT:\n    [Company Name]<||>[Industry]<||>[Revenue/Status]<||>[Location/Website]").data

/-- Body of the `Custom` template. -/
def customBody : Str :=
  ("You are an information analyst. Analyze this query: {query}\n    \n    Your task:\n    1. Search for relevant information\n    2. Extract specific details matching the requested format\n    3. Format response precisely\n    \n    Available information from search:\n    {search_results}\n    \n    Rules:\n    - Focus on accuracy and relevance\n    - Include source URLs when available\n    - Follow the exact format requested").data

/-- The static `PROMPT_TEMPLATES` registry as a lookup by name
(`PROMPT_TEMPLATES.get`), in dictionary insertion order. -/
def PROMPT_TEMPLATES (name : Str) : Option Str :=
  if name = "Product Search".data then some productSearchBody
  else if name = "Location Info".data then some locationInfoBody
  else if name = "Company Details".data then some companyDetailsBody
  else if name = "Custom".data then some customBody
  else none

/-- `create_formatted_prompt`: look the name up with fallback to `Custom`,
apply `base_prompt.format(query=query, search_results="{search_results}")` —
substituting the `search_results` field by its own literal text is the
identity, so only the `query` field is replaced, and substituted values are
not rescanned, matching `pyReplace` — then append the required-format line. -/
def create_formatted_prompt (query template_option format_input : Str) : Str :=
  let base_prompt := (PROMPT_TEMPLATES template_option).getD customBody
  let formatted_prompt := pyReplace base_prompt "{query}".data query
  formatted_prompt ++ "\nRequired output format: ".data ++ format_input

/-- A delimiter with no nonempty proper border: no nonempty proper prefix of
`d` is also a suffix of `d`. This holds for `<||>` and rules out occurrences
of the delimiter straddling a field boundary in a joined string. -/
def borderFree (d : Str) : Prop :=
  ∀ k < d.length, 0 < k → d.take k ≠ d.drop (d.length - k)

theorem pySplitAux_nil (sep : Str) (fuel : Nat) : pySplitAux sep fuel [] = [[]] := by
  cases fuel <;> rfl

theorem pySplitAux_zero (sep s : Str) : pySplitAux sep 0 s = [s] := by
  cases s <;> rfl

theorem pySplitAux_succ (sep : Str) (fuel : Nat) (c : Char) (rest : Str) :
    pySplitAux sep (fuel + 1) (c :: rest) =
      if sep.isPrefixOf (c :: rest) then
        [] :: pySplitAux sep fuel (rest.drop (sep.length - 1))
      else
        match pySplitAux sep fuel rest with
        | [] => [[c]]
        | f :: fs => (c :: f) :: fs := rfl

theorem joinSep_cons2 (sep x y : Str) (xs : List Str) :
    joinSep sep (x :: y :: xs) = x ++ sep ++ joinSep sep (y :: xs) := rfl

theorem isPrefixOf_true_iff {l : Str} : ∀ {t : Str}, l.isPrefixOf t = true ↔ l <+: t := by
  induction l with
  | nil => intro t; simp [List.isPrefixOf]
  | cons c cs ih =>
    intro t
    cases t with
    | nil => simp [List.isPrefixOf]
    | cons d ds =>
      simp [List.isPrefixOf, List.cons_prefix_cons, ih]

theorem contains_of_prefix {sub s : Str} (h : sub <+: s) : containsSub sub s = true := by
  cases s with
  | nil =>
    have hsub : sub = [] := List.prefix_nil.mp h
    simp [containsSub, hsub]
  | cons c rest =>
    have : sub.isPrefixOf (c :: rest) = true := isPrefixOf_true_iff.mpr h
    simp [containsSub, this]

theorem contains_mid (sub : Str) : ∀ pre post : Str,
    containsSub sub (pre ++ sub ++ post) = true := by
  intro pre
  induction pre with
  | nil =>
    intro post
    exact contains_of_prefix ⟨post, rfl⟩
  | cons p pre ih =>
    intro post
    show containsSub sub (p :: (pre ++ sub ++ post)) = true
    simp only [containsSub, Bool.or_eq_true]
    exact Or.inr (ih post)

theorem contains_cons_false {sub : Str} {c : Char} {rest : Str}
    (h : containsSub sub (c :: rest) = false) :
    sub.isPrefixOf (c :: rest) = false ∧ containsSub sub rest = false := by
  simpa [containsSub] using h

theorem pySplitAux_ne_nil (sep : Str) (fuel : Nat) (s : Str) :
    pySplitAux sep fuel s ≠ [] := by
  cases fuel with
  | zero => cases s <;> simp [pySplitAux_nil, pySplitAux_zero]
  | succ g =>
    cases s with
    | nil => simp [pySplitAux_nil]
    | cons c rest =>
      rw [pySplitAux_succ]
      by_cases hp : sep.isPrefixOf (c :: rest) = true
      · simp [hp]
      · rw [if_neg hp]
        cases h : pySplitAux sep g rest <;> simp

theorem pySplit_ne_nil (sep s : Str) : pySplit sep s ≠ [] :=
  pySplitAux_ne_nil sep s.length s

theorem pySplitAux_of_not_contains (sep : Str) :
    ∀ fuel s, containsSub sep s = false → pySplitAux sep fuel s = [s] := by
  intro fuel
  induction fuel with
  | zero => intro s _; exact pySplitAux_zero sep s
  | succ g ih =>
    intro s hfree
    cases s with
    | nil => exact pySplitAux_nil sep _
    | cons c rest =>
      obtain ⟨hp, hrest⟩ := contains_cons_false hfree
      rw [pySplitAux_succ, if_neg (by simp [hp]), ih rest hrest]

theorem pySplit_of_not_contains (sep s : Str) (hfree : containsSub sep s = false) :
    pySplit sep s = [s] :=
  pySplitAux_of_not_contains sep s.length s hfree

theorem pySplitAux_fuel (sep : Str) :
    ∀ fuel fuel2 s, s.length ≤ fuel → s.length ≤ fuel2 →
      pySplitAux sep fuel s = pySplitAux sep fuel2 s := by
  intro fuel
  induction fuel with
  | zero =>
    intro fuel2 s h1 _
    have hs : s = [] := List.eq_nil_of_length_eq_zero (Nat.le_zero.mp h1)
    subst hs
    rw [pySplitAux_nil, pySplitAux_nil]
  | succ g ih =>
    intro fuel2 s h1 h2
    cases s with
    | nil => rw [pySplitAux_nil, pySplitAux_nil]
    | cons c rest =>
      cases fuel2 with
      | zero => exact absurd h2 (by simp)
      | succ g2 =>
        rw [pySplitAux_succ, pySplitAux_succ]
        have hr1 : rest.length ≤ g := by
          simpa using Nat.le_of_succ_le_succ h1
        have hr2 : rest.length ≤ g2 := by
          simpa using Nat.le_of_succ_le_succ h2
        by_cases hp : sep.isPrefixOf (c :: rest) = true
        · rw [if_pos hp, if_pos hp]
          have hd : (rest.drop (sep.length - 1)).length ≤ rest.length := by
            simp [List.length_drop]
          rw [ih g2 _ (Nat.le_trans hd hr1) (Nat.le_trans hd hr2)]
        · rw [if_neg hp, if_neg hp, ih g2 rest hr1 hr2]

/-- The key non-straddling fact: a border-free delimiter is not a prefix of
`raw ++ sep ++ s` when `raw` is nonempty and does not contain the delimiter,
so the leftmost occurrence of the delimiter sits exactly after `raw`. -/
theorem sep_not_prefix_mid (sep : Str) (hbf : borderFree sep)
    (raw s : Str) (hraw : raw ≠ []) (hfree : containsSub sep raw = false) :
    sep.isPrefixOf (raw ++ sep ++ s) = false := by
  by_contra hcon
  have hpre : sep <+: raw ++ sep ++ s :=
    isPrefixOf_true_iff.mp (by revert hcon; cases sep.isPrefixOf (raw ++ sep ++ s) <;> simp)
  rw [List.append_assoc] at hpre
  rcases le_or_lt sep.length raw.length with hle | hlt
  · have hrawpre : raw <+: raw ++ (sep ++ s) := List.prefix_append raw (sep ++ s)
    have hsepraw : sep <+: raw := List.prefix_of_prefix_length_le hpre hrawpre hle
    have := contains_of_prefix hsepraw
    rw [hfree] at this
    exact Bool.false_ne_true this
  · have hrawpre : raw <+: raw ++ (sep ++ s) := List.prefix_append raw (sep ++ s)
    have hrawsep : raw <+: sep :=
      List.prefix_of_prefix_length_le hrawpre hpre (Nat.le_of_lt hlt)
    obtain ⟨t, ht⟩ := hrawsep
    have hlen : raw.length + t.length = sep.length := by
      have := congrArg List.length ht
      simpa using this
    have hrawlen : 0 < raw.length := List.length_pos.mpr hraw
    have htlen : 0 < t.length := by omega
    obtain ⟨u, hu⟩ := hpre
    have htu : t ++ u = sep ++ s := by
      have : raw ++ (t ++ u) = raw ++ (sep ++ s) := by
        rw [← List.append_assoc, ht]
        exact hu
      exact List.append_cancel_left this
    have htpre : t <+: sep :=
      List.prefix_of_prefix_length_le ⟨u, htu⟩ (List.prefix_append sep s) (by omega)
    have htake : t = sep.take t.length := List.prefix_iff_eq_take.mp htpre
    have hdrop : sep.drop raw.length = t := by
      rw [← ht]
      exact List.drop_left raw t
    refine hbf t.length (by omega) htlen ?_
    rw [← htake, show sep.length - t.length = raw.length by omega, hdrop]

/-- Splitting `raw ++ sep ++ s` on a nonempty border-free `sep` when `raw`
does not contain `sep`: the first field is exactly `raw`. -/
theorem pySplitAux_append (sep : Str) (hsep : sep ≠ []) (hbf : borderFree sep) :
    ∀ raw fuel s, containsSub sep raw = false → (raw ++ sep ++ s).length ≤ fuel →
      pySplitAux sep fuel (raw ++ sep ++ s) = raw :: pySplit sep s := by
  intro raw
  induction raw with
  | nil =>
    intro fuel s _ hlen
    obtain ⟨c, sep2, rfl⟩ : ∃ c sep2, sep = c :: sep2 := by
      cases sep with
      | nil => exact absurd rfl hsep
      | cons c sep2 => exact ⟨c, sep2, rfl⟩
    cases fuel with
    | zero => exact absurd hlen (by simp)
    | succ g =>
      show pySplitAux (c :: sep2) (g + 1) (c :: (sep2 ++ s)) = [] :: pySplit (c :: sep2) s
      rw [pySplitAux_succ]
      rw [if_pos (show (c :: sep2).isPrefixOf (c :: (sep2 ++ s)) = true from
        isPrefixOf_true_iff.mpr ⟨s, rfl⟩)]
      have hdrop : (sep2 ++ s).drop ((c :: sep2).length - 1) = s := by
        simp [List.drop_left]
      rw [hdrop]
      have hg : s.length ≤ g := by
        simp [List.length_append] at hlen
        omega
      rw [pySplitAux_fuel (c :: sep2) g s.length s hg (Nat.le_refl _)]
      rfl
  | cons a raw2 ih =>
    intro fuel s hfree hlen
    cases fuel with
    | zero => exact absurd hlen (by simp)
    | succ g =>
      show pySplitAux sep (g + 1) (a :: (raw2 ++ sep ++ s)) = (a :: raw2) :: pySplit sep s
      rw [pySplitAux_succ]
      have hnp : sep.isPrefixOf (a :: (raw2 ++ sep ++ s)) = false :=
        sep_not_prefix_mid sep hbf (a :: raw2) s (by simp) hfree
      rw [if_neg (show ¬sep.isPrefixOf (a :: (raw2 ++ sep ++ s)) = true by
        rw [hnp]; exact Bool.false_ne_true)]
      have hfree2 : containsSub sep raw2 = false := (contains_cons_false hfree).2
      have hg : (raw2 ++ sep ++ s).length ≤ g := by
        simpa using Nat.le_of_succ_le_succ hlen
      rw [ih g s hfree2 hg]

theorem pySplit_append (sep : Str) (hsep : sep ≠ []) (hbf : borderFree sep)
    (raw s : Str) (hfree : containsSub sep raw = false) :
    pySplit sep (raw ++ sep ++ s) = raw :: pySplit sep s :=
  pySplitAux_append sep hsep hbf raw (raw ++ sep ++ s).length s hfree (Nat.le_refl _)

/-- Round trip: splitting a `sep`-join of fields that do not contain the
nonempty border-free delimiter recovers exactly the fields. -/
theorem pySplit_joinSep (sep : Str) (hsep : sep ≠ []) (hbf : borderFree sep) :
    ∀ l : List Str, l ≠ [] → (∀ x ∈ l, containsSub sep x = false) →
      pySplit sep (joinSep sep l) = l := by
  intro l
  induction l with
  | nil => intro h _; exact absurd rfl h
  | cons x xs ih =>
    intro _ hall
    cases xs with
    | nil =>
      show pySplit sep x = [x]
      exact pySplit_of_not_contains sep x (hall x (List.mem_cons_self x []))
    | cons y ys =>
      rw [joinSep_cons2]
      rw [pySplit_append sep hsep hbf x (joinSep sep (y :: ys))
        (hall x (List.mem_cons_self x _))]
      rw [ih (by simp) (fun z hz => hall z (List.mem_cons_of_mem x hz))]

/-- Joining `x :: replicate k y` with `sep` is `x` followed by `k` copies of
`sep ++ y`. -/
theorem joinSep_replicate (sep y : Str) :
    ∀ (k : Nat) (x : Str),
      joinSep sep (x :: List.replicate k y) =
        x ++ (List.replicate k (sep ++ y)).flatten := by
  intro k
  induction k with
  | zero => intro x; simp [joinSep]
  | succ k ih =>
    intro x
    rw [List.replicate_succ, joinSep_cons2, ih y, List.replicate_succ]
    simp

theorem borderFree_DELIM : borderFree DELIM := by
  unfold borderFree
  decide

/-- Claim C1. For every agent output string that does not contain `<||>` and
every format string splitting into `n` fields, the normalization step returns
exactly `n` delimiter-joined fields: the first is the raw agent text and the
remaining `n - 1` are the literal sentinel `N/A`. -/
theorem claim1 (response format_input : Str)
    (hfree : containsSub DELIM response = false) :
    pySplit DELIM (normalizeResponse response format_input) =
      response ::
        List.replicate ((pySplit DELIM format_input).length - 1) NA ∧
    (pySplit DELIM (normalizeResponse response format_input)).length =
      (pySplit DELIM format_input).length := by
  have hDne : DELIM ≠ [] := by decide
  have hbf : borderFree DELIM := borderFree_DELIM
  have hNA : containsSub DELIM NA = false := by decide
  have hnorm : normalizeResponse response format_input =
      joinSep DELIM
        (response ::
          List.replicate ((pySplit DELIM format_input).length - 1) NA) := by
    unfold normalizeResponse
    rw [if_neg (by rw [hfree]; exact Bool.false_ne_true)]
  have hsplit : pySplit DELIM (normalizeResponse response format_input) =
      response ::
        List.replicate ((pySplit DELIM format_input).length - 1) NA := by
    rw [hnorm]
    apply pySplit_joinSep DELIM hDne hbf
    · simp
    · intro x hx
      rcases List.mem_cons.mp hx with rfl | hx2
      · exact hfree
      · rw [List.eq_of_mem_replicate hx2]; exact hNA
  refine ⟨hsplit, ?_⟩
  rw [hsplit]
  have hpos : 0 < (pySplit DELIM format_input).length :=
    List.length_pos.mpr (pySplit_ne_nil DELIM format_input)
  simp only [List.length_cons, List.length_replicate]
  omega

/-- Witness for C1 at the Company Details schema and a delimiter-free agent
answer. -/
theorem claim1_witness :
    containsSub DELIM "Acme Corp".data = false ∧
    (pySplit DELIM
        (normalizeResponse "Acme Corp".data
          "company<||>industry<||>revenue<||>headquarters".data) =
      "Acme Corp".data ::
        List.replicate
          ((pySplit DELIM
              "company<||>industry<||>revenue<||>headquarters".data).length - 1)
          NA ∧
    (pySplit DELIM
        (normalizeResponse "Acme Corp".data
          "company<||>industry<||>revenue<||>headquarters".data)).length =
      (pySplit DELIM
          "company<||>industry<||>revenue<||>headquarters".data).length) :=
  ⟨by decide, claim1 _ _ (by decide)⟩

/-- Claim C9. When the agent output already contains `<||>`, the
normalization step is the identity, regardless of the schema fields. -/
theorem claim9 (response format_input : Str)
    (h : containsSub DELIM response = true) :
    normalizeResponse response format_input = response := by
  unfold normalizeResponse
  rw [if_pos h]

/-- Witness for C9. -/
theorem claim9_witness :
    containsSub DELIM "a<||>b".data = true ∧
    normalizeResponse "a<||>b".data "f1<||>f2<||>f3".data = "a<||>b".data :=
  ⟨by decide, claim9 _ _ (by decide)⟩

/-- Claim C2 counterexample: with the one-field format string `field1` and
the delimiter-free agent output `hello`, the stored text contains no `<||>`,
so the final text is not guaranteed to contain the delimiter for every
selected format string. -/
theorem claim2_counterexample :
    ¬containsSub DELIM (normalizeResponse "hello".data "field1".data) = true := by
  decide

/-- Claim C2 as amended: for every agent response and every format string
whose split on `<||>` yields at least two fields, the final stored text
contains the delimiter. -/
theorem claim2_amended (response format_input : Str)
    (h2 : 2 ≤ (pySplit DELIM format_input).length) :
    containsSub DELIM (normalizeResponse response format_input) = true := by
  unfold normalizeResponse
  by_cases hc : containsSub DELIM response = true
  · rw [if_pos hc]; exact hc
  · rw [if_neg hc]
    obtain ⟨k, hk⟩ : ∃ k, (pySplit DELIM format_input).length - 1 = k + 1 :=
      ⟨(pySplit DELIM format_input).length - 2, by omega⟩
    rw [hk, List.replicate_succ, joinSep_cons2]
    exact contains_mid DELIM response _

/-- Witness for the amended C2. -/
theorem claim2_witness :
    2 ≤ (pySplit DELIM "field1<||>field2".data).length ∧
    containsSub DELIM
      (normalizeResponse "hello".data "field1<||>field2".data) = true :=
  ⟨by decide, claim2_amended _ _ (by decide)⟩

theorem fmtLine_isSome (st : FmtState) (l : Str) (h : goodLine l = true) :
    (fmtLine st l).isSome = true := by
  simp only [fmtLine]
  by_cases hp : SRC.isPrefixOf (pyStrip l) = true
  · rw [if_pos hp]
    have hd := h
    simp only [goodLine, hp, Bool.not_true, Bool.false_or] at hd
    cases hdom : domainOf (pyStrip (pyReplace (pyStrip l) SRC [])) with
    | none => rw [hdom] at hd; simp at hd
    | some d => simp
  · rw [if_neg hp]
    split
    · split
      · simp
      · simp
    · simp

theorem foldlM_fmtLine_isSome :
    ∀ (lines : List Str) (st : FmtState), lines.all goodLine = true →
      (lines.foldlM fmtLine st).isSome = true := by
  intro lines
  induction lines with
  | nil => intro st _; rfl
  | cons l ls ih =>
    intro st hall
    rw [List.all_cons, Bool.and_eq_true] at hall
    rw [List.foldlM_cons]
    cases hfl : fmtLine st l with
    | none =>
      have := fmtLine_isSome st l hall.1
      rw [hfl] at this
      simp at this
    | some st2 => simpa using ih st2 hall.2

/-- Claim C3 counterexample: a `Source:` line whose URL contains `/` but has
fewer than three `/`-parts makes `format_to_markdown` raise `IndexError`
(embedded as `none`), so the formatter is not total. -/
theorem claim3_counterexample :
    ¬(format_to_markdown "Source: a/b".data).isSome = true := by
  decide

/-- Claim C3 as amended: `format_to_markdown` is pure and returns a string
for every input whose stripped `Source:` lines each either contain no `/` or
split on `/` into at least three parts; a `Source:` line with a `/` but fewer
than three `/`-parts raises `IndexError` instead. -/
theorem claim3_amended (search_results : Str)
    (h : (pySplit ['\n'] search_results).all goodLine = true) :
    (format_to_markdown search_results).isSome = true := by
  unfold format_to_markdown
  have hfold := foldlM_fmtLine_isSome (pySplit ['\n'] search_results) ⟨none, []⟩ h
  cases hf : (pySplit ['\n'] search_results).foldlM fmtLine ⟨none, []⟩ with
  | none => rw [hf] at hfold; simp at hfold
  | some st => simp

/-- Witness for the amended C3. -/
theorem claim3_witness :
    (pySplit ['\n'] "Source: https://a.com/x\nRYOBI drill $49.99".data).all
      goodLine = true ∧
    (format_to_markdown
        "Source: https://a.com/x\nRYOBI drill $49.99".data).isSome = true :=
  ⟨by decide, claim3_amended _ (by decide)⟩

/-- Claim C4 counterexample: `query.replace("llc", "")` is case-sensitive, so
for the query `Acme LLC` the substring `LLC` is not stripped and the two
planned queries are not the claimed ones. -/
theorem claim4_counterexample :
    plannedSearches "Acme LLC".data MAX_SEARCH_RESULTS ≠
      [⟨"Acme company website OR Acme.com".data, 2⟩,
       ⟨"Acme company (industry OR revenue OR headquarters)".data, 2⟩] := by
  decide

/-- Claim C4 as amended: for the lowercase query `Acme llc` the provider
plans exactly the two claimed searches, each capped at 2 results, and for any
backend the batch result is the website-query results concatenated before the
specific-info-query results. -/
theorem claim4_amended :
    plannedSearches "Acme llc".data MAX_SEARCH_RESULTS =
      [⟨"Acme company website OR Acme.com".data, 2⟩,
       ⟨"Acme company (industry OR revenue OR headquarters)".data, 2⟩] ∧
    ∀ f : Str → Nat → Except Str (List Str),
      runSearches f "Acme llc".data MAX_SEARCH_RESULTS =
        (f "Acme company website OR Acme.com".data 2).bind
          (fun r1 =>
            (f "Acme company (industry OR revenue OR headquarters)".data 2).map
              (fun r2 => r1 ++ r2)) := by
  have hplan : plannedSearches "Acme llc".data MAX_SEARCH_RESULTS =
      [⟨"Acme company website OR Acme.com".data, 2⟩,
       ⟨"Acme company (industry OR revenue OR headquarters)".data, 2⟩] := by
    decide
  refine ⟨hplan, ?_⟩
  intro f
  unfold runSearches
  rw [hplan]
  cases h1 : f "Acme company website OR Acme.com".data 2 with
  | error e1 =>
    simp [List.foldlM_cons, List.foldlM_nil, h1, Except.map]
    rfl
  | ok r1 =>
    cases h2 : f "Acme company (industry OR revenue OR headquarters)".data 2 with
    | error e2 =>
      simp [List.foldlM_cons, List.foldlM_nil, h1, h2, Except.map]
      rfl
    | ok r2 =>
      simp [List.foldlM_cons, List.foldlM_nil, h1, h2, Except.map]
      rfl

/-- Claim C5 counterexample: the heading domain for
`https://a.com/x` is `a.com` (index 2 of the `/`-split), not `com`, so the
claimed output is wrong. -/
theorem claim5_counterexample :
    format_to_markdown
        "Source: https://a.com/x\nRYOBI drill $49.99\nirrelevant line".data ≠
      some "\n### [com](https://a.com/x)\n- RYOBI drill $49.99".data := by
  decide

/-- Claim C5 as amended: the scenario output has heading domain `a.com`; the
irrelevant line is dropped. -/
theorem claim5_amended :
    format_to_markdown
        "Source: https://a.com/x\nRYOBI drill $49.99\nirrelevant line".data =
      some "\n### [a.com](https://a.com/x)\n- RYOBI drill $49.99".data := by
  decide

/-- Claim C6. An agent invocation error whose message contains the
case-insensitive substring `maximum iterations` is replaced by the fixed
fallback message; every other error is re-raised to the caller unchanged. -/
theorem claim6 (e : Str) :
    (containsSub ITER_MSG (pyLower e) = true →
      handleAgentError (Except.error e) = Except.ok FALLBACK) ∧
    (containsSub ITER_MSG (pyLower e) = false →
      handleAgentError (Except.error e) = Except.error e) := by
  constructor
  · intro h
    show (if containsSub ITER_MSG (pyLower e) = true then Except.ok FALLBACK
      else Except.error e) = Except.ok FALLBACK
    rw [if_pos h]
  · intro h
    show (if containsSub ITER_MSG (pyLower e) = true then Except.ok FALLBACK
      else Except.error e) = Except.error e
    rw [if_neg (by rw [h]; exact Bool.false_ne_true)]

/-- Witness for C6: one iteration-cap message (mixed case) and one other
error. -/
theorem claim6_witness :
    (containsSub ITER_MSG
        (pyLower "Agent stopped due to Maximum Iterations Reached".data) = true ∧
      handleAgentError
          (Except.error "Agent stopped due to Maximum Iterations Reached".data) =
        Except.ok FALLBACK) ∧
    (containsSub ITER_MSG (pyLower "connection reset".data) = false ∧
      handleAgentError (Except.error "connection reset".data) =
        Except.error "connection reset".data) :=
  ⟨⟨by decide, (claim6 _).1 (by decide)⟩, ⟨by decide, (claim6 _).2 (by decide)⟩⟩

/-- Claim C7. The search provider never lets an exception escape: when the
underlying search batch raises with message `e`, the provider returns the
plain-text string `Error in Google Search: ` followed by `e`. (That the
provider always returns a string is built into its embedding type.) -/
theorem claim7 (f : Str → Nat → Except Str (List Str)) (query : Str)
    (num : Nat) (e : Str) (h : runSearches f query num = Except.error e) :
    google_search_tool f query num = ERR_HEAD ++ e := by
  unfold google_search_tool
  rw [h]

/-- Witness for C7 with a backend that always raises. -/
theorem claim7_witness :
    runSearches (fun _ _ => Except.error "boom".data) "weather".data 3 =
      Except.error "boom".data ∧
    google_search_tool (fun _ _ => Except.error "boom".data) "weather".data 3 =
      ERR_HEAD ++ "boom".data :=
  ⟨rfl, claim7 _ _ _ _ rfl⟩

/-- Claim C8. The prompt builder is a pure function (identical triples give
identical output), and every template name outside the registry resolves to
the `Custom` template with no error. -/
theorem claim8 (query template_option format_input : Str) :
    create_formatted_prompt query template_option format_input =
      create_formatted_prompt query template_option format_input ∧
    (template_option ≠ "Custom".data →
      template_option ≠ "Product Search".data →
      template_option ≠ "Location Info".data →
      template_option ≠ "Company Details".data →
      create_formatted_prompt query template_option format_input =
        create_formatted_prompt query "Custom".data format_input) := by
  refine ⟨rfl, ?_⟩
  intro h1 h2 h3 h4
  unfold create_formatted_prompt PROMPT_TEMPLATES
  rw [if_neg h2, if_neg h3, if_neg h4, if_neg h1,
    if_neg (by decide), if_neg (by decide), if_neg (by decide), if_pos rfl]
  rfl

/-- Witness for C8 at an unregistered template name. -/
theorem claim8_witness :
    "Bogus".data ≠ "Custom".data ∧
    create_formatted_prompt "best drill".data "Bogus".data
        "field1<||>field2".data =
      create_formatted_prompt "best drill".data "Custom".data
        "field1<||>field2".data :=
  ⟨by decide,
    (claim8 "best drill".data "Bogus".data "field1<||>field2".data).2
      (by decide) (by decide) (by decide) (by decide)⟩

/-- Claim C10. When the agent invocation raises an iteration-cap error, the
fallback message (which contains no delimiter) goes through the normalizer,
so the stored turn text is the fallback message followed by `n - 1` copies of
`<||>N/A`, where `n` is the field count of the selected format string. -/
theorem claim10 (e format_input : Str)
    (h : containsSub ITER_MSG (pyLower e) = true) :
    turnResponse (Except.error e) format_input =
      Except.ok (FALLBACK ++
        (List.replicate ((pySplit DELIM format_input).length - 1)
          (DELIM ++ NA)).flatten) := by
  have h1 : handleAgentError (Except.error e) = Except.ok FALLBACK := by
    show (if containsSub ITER_MSG (pyLower e) = true then Except.ok FALLBACK
      else Except.error e) = Except.ok FALLBACK
    rw [if_pos h]
  unfold turnResponse
  rw [h1]
  show Except.ok (normalizeResponse FALLBACK format_input) = _
  have hfb : containsSub DELIM FALLBACK = false := by decide
  unfold normalizeResponse
  rw [if_neg (by rw [hfb]; exact Bool.false_ne_true)]
  rw [joinSep_replicate]

/-- Witness for C10 at a lowercase iteration-cap message and a three-field
format. -/
theorem claim10_witness :
    containsSub ITER_MSG
      (pyLower "Agent stopped: maximum iterations reached".data) = true ∧
    turnResponse
        (Except.error "Agent stopped: maximum iterations reached".data)
        "a<||>b<||>c".data =
      Except.ok (FALLBACK ++
        (List.replicate ((pySplit DELIM "a<||>b<||>c".data).length - 1)
          (DELIM ++ NA)).flatten) :=
  ⟨by decide, claim10 _ _ (by decide)⟩
